import Mathlib

/-!
Verification development for the Rhino BREP surface-analysis scripts
(01_analyze_brep.py, 02_check_surface.py, 03_create_line_cylinder.py,
04_batch_process_surfaces.py).  The scripts' geometry and control flow are
shallowly embedded below; floating-point coordinates are modelled over ℚ,
and the host API (TryGetCylinder / TryGetCone / TryGetSphere / IsPlanar /
Domain / PointAt / GetType().Name) is modelled as record fields of an
abstract surface/face.  rs.AddLine success or failure is modelled by an
abstract sink predicate on segments.
-/

namespace RhinoBrep

/-- A 3D point with rational coordinates (the scripts' floating-point
arithmetic is modelled exactly over ℚ). -/
structure Point3 where
  x : ℚ
  y : ℚ
  z : ℚ
deriving DecidableEq

/-- A 3D vector with rational coordinates. -/
structure Vector3 where
  x : ℚ
  y : ℚ
  z : ℚ
deriving DecidableEq

/-- Point difference `p - q`, yielding a vector (used as `p1 - cyl_center`). -/
def Point3.vsub (p q : Point3) : Vector3 :=
  ⟨p.x - q.x, p.y - q.y, p.z - q.z⟩

/-- Point plus vector `p + v` (used as `cyl_center + axis * t`). -/
def Point3.vadd (p : Point3) (v : Vector3) : Point3 :=
  ⟨p.x + v.x, p.y + v.y, p.z + v.z⟩

/-- Point minus vector `p - v` (used as `c - ax * 2.5`). -/
def Point3.vsubv (p : Point3) (v : Vector3) : Point3 :=
  ⟨p.x - v.x, p.y - v.y, p.z - v.z⟩

/-- Vector scaled by a scalar, `v * t`. -/
def Vector3.smul (v : Vector3) (t : ℚ) : Vector3 :=
  ⟨v.x * t, v.y * t, v.z * t⟩

/-- Dot product of two vectors. -/
def Vector3.dot (a b : Vector3) : ℚ :=
  a.x * b.x + a.y * b.y + a.z * b.z

/-- A parametric domain: `face.Domain(dir)` with its `.Min` and `.Max`. -/
structure Interval where
  min : ℚ
  max : ℚ
deriving DecidableEq

/-- Result of a successful `TryGetCylinder`: `.Center`, `.Axis`, `.Radius`. -/
structure Cylinder where
  center : Point3
  axis : Vector3
  radius : ℚ
deriving DecidableEq

/-- Result of a successful `TryGetCone`: `.ApexPoint`, `.Axis`, `.Radius`,
`.AngleInDegrees`. -/
structure Cone where
  apexPoint : Point3
  axis : Vector3
  radius : ℚ
  angleInDegrees : ℚ
deriving DecidableEq

/-- Result of a successful `TryGetSphere`: `.Center`, `.Radius`. -/
structure Sphere where
  center : Point3
  radius : ℚ
deriving DecidableEq

/-- The analytic-fit and type-name capabilities of an underlying surface.
`TryGetCylinder()` returning `(False, _)` is modelled as `none`, returning
`(True, cyl)` as `some cyl`; likewise for the cone and sphere fits.
`typeName` models `surf.GetType().Name`. -/
structure Surface where
  tryGetCylinder : Option Cylinder
  tryGetCone : Option Cone
  tryGetSphere : Option Sphere
  typeName : String

/-- A face: its underlying surface, the `IsPlanar()` predicate, its two
parametric domains `Domain(0)` / `Domain(1)`, and point evaluation
`PointAt(u, v)`. -/
structure Face where
  underlyingSurface : Surface
  isPlanar : Bool
  domainU : Interval
  domainV : Interval
  pointAt : ℚ → ℚ → Point3

/-! ## 01_analyze_brep.py — whole-solid statistics -/

/-- The hardcoded `DIAMETER_THRESHOLD = 3.2  # mm` of 01_analyze_brep.py. -/
def DIAMETER_THRESHOLD : ℚ := 3.2

/-- The fixed kind-name list `["NurbsSurface", "SumSurface", "RevSurface"]`
tested by 01_analyze_brep.py and 02_check_surface.py. -/
def nurbs_type_names : List String :=
  ["NurbsSurface", "SumSurface", "RevSurface"]

/-- The six counters of 01_analyze_brep.py. -/
structure Stats where
  cylinders : Nat
  cones : Nat
  planes : Nat
  nurbs : Nat
  others : Nat
  cylinders_above_threshold : Nat
deriving DecidableEq

/-- All-zero counters, the loop's initial state. -/
def Stats.zero : Stats := ⟨0, 0, 0, 0, 0, 0⟩

/-- One iteration of the face loop of 01_analyze_brep.py: the
`if is_cyl / elif is_cone / elif is_planar / elif kind-name / else`
chain, incrementing exactly the chosen counter; in the cylinder branch,
additionally the above-threshold counter when `diameter > threshold`
(the script hardcodes `threshold = DIAMETER_THRESHOLD`). -/
def analyzeFaceStep (threshold : ℚ) (acc : Stats) (face : Face) : Stats :=
  let surf := face.underlyingSurface
  match surf.tryGetCylinder with
  | some cyl =>
      let acc1 := { acc with cylinders := acc.cylinders + 1 }
      let diameter := cyl.radius * 2
      if diameter > threshold then
        { acc1 with cylinders_above_threshold := acc1.cylinders_above_threshold + 1 }
      else
        acc1
  | none =>
      match surf.tryGetCone with
      | some _ => { acc with cones := acc.cones + 1 }
      | none =>
          if face.isPlanar then
            { acc with planes := acc.planes + 1 }
          else if surf.typeName ∈ nurbs_type_names then
            { acc with nurbs := acc.nurbs + 1 }
          else
            { acc with others := acc.others + 1 }

/-- The whole face loop of 01_analyze_brep.py over the faces of the Brep,
in face-index order, starting from all-zero counters. -/
def analyzeBrep (threshold : ℚ) (faces : List Face) : Stats :=
  List.foldl (analyzeFaceStep threshold) Stats.zero faces

/-- The classification tag a face receives in 01_analyze_brep.py's chain
(which branch of the `if/elif` ladder fires). -/
inductive Tag where
  | cylinder
  | cone
  | plane
  | nurbs
  | other
deriving DecidableEq

/-- The branch of 01_analyze_brep.py's ladder a given face takes. -/
def faceTag (face : Face) : Tag :=
  let surf := face.underlyingSurface
  if surf.tryGetCylinder.isSome then .cylinder
  else if surf.tryGetCone.isSome then .cone
  else if face.isPlanar then .plane
  else if surf.typeName ∈ nurbs_type_names then .nurbs
  else .other

/-! ## Geometry handles and their resolution (02/03/04 preamble)

All three single/batch scripts resolve a selected handle to a pair
`(surf, face)`: for a Brep (`ObjectType == 16`) they take `geo.Faces[0]`
and its `UnderlyingSurface()` (04 additionally guards `Faces.Count > 0`,
vacuous here because a Brep handle carries at least one face); for a bare
surface (`ObjectType == 8`) the surface itself plays both roles, with
`face = geo if hasattr(geo, 'PointAt') else None`. -/

/-- A resolved geometry handle: a Brep with face 0 and remaining faces, or
a bare surface whose face view may be absent. -/
inductive Geo where
  | brep (face0 : Face) (rest : List Face)
  | srf (s : Surface) (face : Option Face)

/-- The `(surf, face)` pair the scripts work with after coercion. -/
def Geo.resolve : Geo → Surface × Option Face
  | .brep f _ => (f.underlyingSurface, some f)
  | .srf s fo => (s, fo)

/-! ## 02_check_surface.py — single-surface inspection -/

/-- The SUMMARY verdict printed at the end of 02_check_surface.py. -/
inductive Summary where
  | CONE
  | CYLINDER
  | PLANE
  | COMPLEX (typeName : String)
deriving DecidableEq

/-- The data 02_check_surface.py computes and reports for one handle:
the four independent type checks with their parameters, the face-center
evaluation, and the final SUMMARY verdict
(`if is_cone / elif is_cyl / elif is_planar / else COMPLEX`). -/
structure SurfaceReport where
  is_cyl : Bool
  cyl : Option Cylinder
  is_cone : Bool
  cone : Option Cone
  is_sphere : Bool
  sphere : Option Sphere
  is_planar : Bool
  faceCenter : Option Point3
  summary : Summary

/-- The inspection pass of 02_check_surface.py on a resolved handle. -/
def check_surface (g : Geo) : SurfaceReport :=
  let (surf, face) := g.resolve
  let is_cyl := surf.tryGetCylinder.isSome
  let is_cone := surf.tryGetCone.isSome
  let is_sphere := surf.tryGetSphere.isSome
  let is_planar := match face with
    | some f => f.isPlanar
    | none => false
  let faceCenter := match face with
    | some f =>
        some (f.pointAt ((f.domainU.min + f.domainU.max) / 2)
          ((f.domainV.min + f.domainV.max) / 2))
    | none => none
  let summary :=
    if is_cone then Summary.CONE
    else if is_cyl then Summary.CYLINDER
    else if is_planar then Summary.PLANE
    else Summary.COMPLEX surf.typeName
  { is_cyl := is_cyl
    cyl := surf.tryGetCylinder
    is_cone := is_cone
    cone := surf.tryGetCone
    is_sphere := is_sphere
    sphere := surf.tryGetSphere
    is_planar := is_planar
    faceCenter := faceCenter
    summary := summary }

/-! ## 03_create_line_cylinder.py — cylinder axis line -/

/-- A finite line from `start` to `endp` (the scripts' `start`/`end` and
`s`/`e` pairs handed to `rs.AddLine`). -/
structure Segment where
  start : Point3
  endp : Point3
deriving DecidableEq

/-- The axis-line computation shared verbatim by 03_create_line_cylinder.py
and the cylinder branch of 04_batch_process_surfaces.py: evaluate the face
at the U-midpoint and the V-domain ends, project both points onto the
cylinder axis through the cylinder center, and span the axis between the
two projection parameters. -/
def cylinderAxisLine (cyl : Cylinder) (face : Face) : Segment :=
  let axis := cyl.axis
  let cyl_center := cyl.center
  let u_mid := (face.domainU.min + face.domainU.max) / 2
  let v_min := face.domainV.min
  let v_max := face.domainV.max
  let p1 := face.pointAt u_mid v_min
  let p2 := face.pointAt u_mid v_max
  let v1 := p1.vsub cyl_center
  let v2 := p2.vsub cyl_center
  let t1 := v1.x * axis.x + v1.y * axis.y + v1.z * axis.z
  let t2 := v2.x * axis.x + v2.y * axis.y + v2.z * axis.z
  ⟨cyl_center.vadd (axis.smul t1), cyl_center.vadd (axis.smul t2)⟩

/-- 03_create_line_cylinder.py on a resolved handle: the line is computed
exactly when `is_cyl and face` (`TryGetCylinder` succeeded and a face view
is available); otherwise no line. -/
def create_line_cylinder (g : Geo) : Option Segment :=
  let (surf, face) := g.resolve
  match surf.tryGetCylinder, face with
  | some cyl, some f => some (cylinderAxisLine cyl f)
  | _, _ => none

/-! ## 04_batch_process_surfaces.py — batch annotation -/

/-- Line colors the batch script assigns: red for cones, green for
cylinders. -/
inductive LineColor where
  | red
  | green
deriving DecidableEq

/-- One `rs.AddLine` request together with the color the script assigns to
the created line. -/
structure AnnotationRequest where
  seg : Segment
  color : LineColor
deriving DecidableEq

/-- The cone branch of 04_batch_process_surfaces.py: the center is the
face evaluated at the midpoint of both domains when a face with domains is
available, else the cone apex; the line spans `c - ax*2.5` to
`c + ax*2.5`. -/
def coneAxisLine (cone : Cone) (face : Option Face) : Segment :=
  let c := match face with
    | some f =>
        f.pointAt ((f.domainU.min + f.domainU.max) / 2)
          ((f.domainV.min + f.domainV.max) / 2)
    | none => cone.apexPoint
  let ax := cone.axis
  ⟨c.vsubv (ax.smul (5 / 2)), c.vadd (ax.smul (5 / 2))⟩

/-- The per-item branch of 04_batch_process_surfaces.py
(`if is_cone: ... elif is_cyl: ... else: pass`): the cone branch always
emits a red request (apex fallback when no face); the cylinder branch
emits a green request only when a face is available (`if face:` with no
else); anything else emits nothing. -/
def processItem (surf : Surface) (face : Option Face) : Option AnnotationRequest :=
  match surf.tryGetCone with
  | some cone => some ⟨coneAxisLine cone face, .red⟩
  | none =>
      match surf.tryGetCylinder, face with
      | some cyl, some f => some ⟨cylinderAxisLine cyl f, .green⟩
      | _, _ => none

/-- The request the batch loop emits for one handle. -/
def emitOf (g : Geo) : Option AnnotationRequest :=
  processItem g.resolve.1 g.resolve.2

/-- One iteration of the batch loop: the accumulator is the ordered list
of emitted requests (each `rs.AddLine` call) and `lines_created`.  The
counter increments only when the sink materializes the line
(`ln = rs.AddLine(...); if ln: ... lines_created += 1`). -/
def batchStep (sink : Segment → Bool) (acc : List AnnotationRequest × Nat)
    (g : Geo) : List AnnotationRequest × Nat :=
  match emitOf g with
  | none => acc
  | some r => (acc.1 ++ [r], if sink r.seg then acc.2 + 1 else acc.2)

/-- The whole batch loop of 04_batch_process_surfaces.py over the selected
items in input order. -/
def batch_process (sink : Segment → Bool) (items : List Geo) :
    List AnnotationRequest × Nat :=
  List.foldl (batchStep sink) ([], 0) items

/-! ## Spec-side formulations (for refinement claims) -/

/-- Spec formulation of the cylinder axis segment (spec §4.2, cylinder
case): evaluate the face at the U-midpoint and at Domain(V).min /
Domain(V).max obtaining P1, P2; project with `ti = dot(Pi - center,
axisDirection)`; endpoints `center + axisDirection * t1` and
`center + axisDirection * t2`, in that order. -/
def specCylinderAxisSegment (cyl : Cylinder) (f : Face) : Segment :=
  let uMid := (f.domainU.min + f.domainU.max) / 2
  let P1 := f.pointAt uMid f.domainV.min
  let P2 := f.pointAt uMid f.domainV.max
  let t1 := (P1.vsub cyl.center).dot cyl.axis
  let t2 := (P2.vsub cyl.center).dot cyl.axis
  ⟨cyl.center.vadd (cyl.axis.smul t1), cyl.center.vadd (cyl.axis.smul t2)⟩

/-- The fixed cone half-length of spec §6 (`coneAxisHalfLength`,
default 2.5 length units). -/
def coneAxisHalfLength : ℚ := 5 / 2

/-- Spec formulation of the cone axis segment (spec §4.2, cone case):
reference point is the surface evaluated at the midpoint of the (U, V)
domain, falling back to the cone apex when domain evaluation is
unavailable; segment is `center - axis*L` to `center + axis*L` for the
fixed constant L. -/
def specConeAxisSegment (k : Cone) (fo : Option Face) : Segment :=
  let c := match fo with
    | some f =>
        f.pointAt ((f.domainU.min + f.domainU.max) / 2)
          ((f.domainV.min + f.domainV.max) / 2)
    | none => k.apexPoint
  ⟨c.vsubv (k.axis.smul coneAxisHalfLength), c.vadd (k.axis.smul coneAxisHalfLength)⟩

/-! ## Sphere-substitution helpers (claim C8) -/

/-- Replace only the sphere-fit outcome of a surface. -/
def Surface.withSphere (s : Surface) (o : Option Sphere) : Surface :=
  { s with tryGetSphere := o }

/-- Replace only the sphere-fit outcome of a face's underlying surface. -/
def Face.withSphere (f : Face) (o : Option Sphere) : Face :=
  { f with underlyingSurface := f.underlyingSurface.withSphere o }

/-- Replace only the sphere-fit outcome throughout a handle. -/
def Geo.withSphere : Geo → Option Sphere → Geo
  | .brep f r, o => .brep (f.withSphere o) r
  | .srf s fo, o => .srf (s.withSphere o) (fo.map (fun f => f.withSphere o))

/-! ## Concrete fixtures -/

/-- Unit axis direction along z. -/
def zAxis : Vector3 := ⟨0, 0, 1⟩

/-- Cylinder parameters: center at the origin, z axis, given radius. -/
def cylParams (r : ℚ) : Cylinder := ⟨⟨0, 0, 0⟩, zAxis, r⟩

/-- Cone parameters: apex at the origin, z axis, radius 1, 45 degrees. -/
def coneParams : Cone := ⟨⟨0, 0, 0⟩, zAxis, 1, 45⟩

/-- A surface recognized only as a cylinder of radius `r`. -/
def cylSurf (r : ℚ) : Surface := ⟨some (cylParams r), none, none, "RevSurface"⟩

/-- A surface recognized only as a cone. -/
def coneSurf : Surface := ⟨none, some coneParams, none, "RevSurface"⟩

/-- A surface passing no analytic fit, with a planar face. -/
def planeSurf : Surface := ⟨none, none, none, "PlaneSurface"⟩

/-- A freeform surface passing no analytic fit. -/
def nurbsSurf : Surface := ⟨none, none, none, "NurbsSurface"⟩

/-- A surface passing BOTH the cylinder and the cone fit. -/
def bothSurf : Surface := ⟨some (cylParams 1), some coneParams, none, "RevSurface"⟩

/-- A face on `cylSurf r`: V runs along the axis from 0 to 2. -/
def cylFace (r : ℚ) : Face :=
  ⟨cylSurf r, false, ⟨0, 2⟩, ⟨0, 2⟩, fun _ v => ⟨r, 0, v⟩⟩

/-- A face on `coneSurf` with domains [0,2] × [0,2]. -/
def coneFace : Face :=
  ⟨coneSurf, false, ⟨0, 2⟩, ⟨0, 2⟩, fun u v => ⟨u, v, 0⟩⟩

/-- A planar face. -/
def planeFace : Face :=
  ⟨planeSurf, true, ⟨0, 1⟩, ⟨0, 1⟩, fun u v => ⟨u, v, 0⟩⟩

/-- A freeform (NurbsSurface) face. -/
def nurbsFace : Face :=
  ⟨nurbsSurf, false, ⟨0, 1⟩, ⟨0, 1⟩, fun u v => ⟨u, v, 0⟩⟩

/-- A face whose surface passes both the cylinder and the cone fit, and
which is additionally planar — the multi-fit precedence probe. -/
def bothFace : Face :=
  ⟨bothSurf, true, ⟨0, 2⟩, ⟨0, 2⟩, fun _ v => ⟨1, 0, v⟩⟩

/-- A cylinder face with a degenerate V-domain (`min == max`). -/
def degenFace : Face :=
  ⟨cylSurf 1, false, ⟨0, 2⟩, ⟨1, 1⟩, fun _ v => ⟨1, 0, v⟩⟩

/-- The six-face solid of the statistics test: three cylinders of
diameters 2, 4, 6, one cone, two planes. -/
def faces6 : List Face :=
  [cylFace 1, cylFace 2, cylFace 3, coneFace, planeFace, planeFace]

/-- The four-item batch of the planner test:
[cylinder, plane, cone, freeform]. -/
def items4 : List Geo :=
  [Geo.srf (cylSurf 1) (some (cylFace 1)), Geo.srf planeSurf (some planeFace),
   Geo.srf coneSurf (some coneFace), Geo.srf nurbsSurf (some nurbsFace)]

/-- Axis segment the batch emits for `cylFace 1`. -/
def cylSegExpected : Segment := ⟨⟨0, 0, 0⟩, ⟨0, 0, 2⟩⟩

/-- Axis segment the batch emits for `coneFace`. -/
def coneSegExpected : Segment := ⟨⟨1, 1, -(5 / 2)⟩, ⟨1, 1, 5 / 2⟩⟩

/-- A cone item handle used in the sink-failure analysis. -/
def coneGeo : Geo := Geo.srf coneSurf (some coneFace)

/-! ## Helper lemmas: the statistics fold -/

/-- Whether 01_analyze_brep.py's above-threshold sub-counter fires for a
face: the cylinder fit succeeded and `diameter > threshold`. -/
def cylAboveThreshold (threshold : ℚ) (f : Face) : Bool :=
  match f.underlyingSurface.tryGetCylinder with
  | some cyl => decide (cyl.radius * 2 > threshold)
  | none => false

lemma analyzeFaceStep_cylinders (thr : ℚ) (acc : Stats) (f : Face) :
    (analyzeFaceStep thr acc f).cylinders
      = acc.cylinders + (if faceTag f = Tag.cylinder then 1 else 0) := by
  simp only [analyzeFaceStep, faceTag]
  split <;> rename_i h <;> simp [h] <;> split <;> simp_all <;> split <;>
    simp_all <;> split <;> simp_all

lemma analyzeFaceStep_cones (thr : ℚ) (acc : Stats) (f : Face) :
    (analyzeFaceStep thr acc f).cones
      = acc.cones + (if faceTag f = Tag.cone then 1 else 0) := by
  simp only [analyzeFaceStep, faceTag]
  split <;> rename_i h <;> simp [h] <;> split <;> simp_all <;> split <;>
    simp_all <;> split <;> simp_all

lemma analyzeFaceStep_planes (thr : ℚ) (acc : Stats) (f : Face) :
    (analyzeFaceStep thr acc f).planes
      = acc.planes + (if faceTag f = Tag.plane then 1 else 0) := by
  simp only [analyzeFaceStep, faceTag]
  split <;> rename_i h <;> simp [h] <;> split <;> simp_all <;> split <;>
    simp_all <;> split <;> simp_all

lemma analyzeFaceStep_nurbs (thr : ℚ) (acc : Stats) (f : Face) :
    (analyzeFaceStep thr acc f).nurbs
      = acc.nurbs + (if faceTag f = Tag.nurbs then 1 else 0) := by
  simp only [analyzeFaceStep, faceTag]
  split <;> rename_i h <;> simp [h] <;> split <;> simp_all <;> split <;>
    simp_all <;> split <;> simp_all

lemma analyzeFaceStep_others (thr : ℚ) (acc : Stats) (f : Face) :
    (analyzeFaceStep thr acc f).others
      = acc.others + (if faceTag f = Tag.other then 1 else 0) := by
  simp only [analyzeFaceStep, faceTag]
  split <;> rename_i h <;> simp [h] <;> split <;> simp_all <;> split <;>
    simp_all <;> split <;> simp_all

lemma analyzeFaceStep_above (thr : ℚ) (acc : Stats) (f : Face) :
    (analyzeFaceStep thr acc f).cylinders_above_threshold
      = acc.cylinders_above_threshold
        + (if cylAboveThreshold thr f then 1 else 0) := by
  simp only [analyzeFaceStep, cylAboveThreshold]
  split <;> rename_i h <;> simp [h] <;> split <;> simp_all <;> split <;>
    simp_all <;> split <;> simp_all

lemma foldl_analyze_cylinders (thr : ℚ) (faces : List Face) (acc : Stats) :
    (List.foldl (analyzeFaceStep thr) acc faces).cylinders
      = acc.cylinders + faces.countP (fun f => decide (faceTag f = Tag.cylinder)) := by
  induction faces generalizing acc with
  | nil => simp
  | cons f fs ih =>
      simp only [List.foldl_cons, List.countP_cons, ih, analyzeFaceStep_cylinders,
        decide_eq_true_eq]
      by_cases hc : faceTag f = Tag.cylinder <;> simp [hc] <;> omega

lemma foldl_analyze_cones (thr : ℚ) (faces : List Face) (acc : Stats) :
    (List.foldl (analyzeFaceStep thr) acc faces).cones
      = acc.cones + faces.countP (fun f => decide (faceTag f = Tag.cone)) := by
  induction faces generalizing acc with
  | nil => simp
  | cons f fs ih =>
      simp only [List.foldl_cons, List.countP_cons, ih, analyzeFaceStep_cones,
        decide_eq_true_eq]
      by_cases hc : faceTag f = Tag.cone <;> simp [hc] <;> omega

lemma foldl_analyze_planes (thr : ℚ) (faces : List Face) (acc : Stats) :
    (List.foldl (analyzeFaceStep thr) acc faces).planes
      = acc.planes + faces.countP (fun f => decide (faceTag f = Tag.plane)) := by
  induction faces generalizing acc with
  | nil => simp
  | cons f fs ih =>
      simp only [List.foldl_cons, List.countP_cons, ih, analyzeFaceStep_planes,
        decide_eq_true_eq]
      by_cases hc : faceTag f = Tag.plane <;> simp [hc] <;> omega

lemma foldl_analyze_nurbs (thr : ℚ) (faces : List Face) (acc : Stats) :
    (List.foldl (analyzeFaceStep thr) acc faces).nurbs
      = acc.nurbs + faces.countP (fun f => decide (faceTag f = Tag.nurbs)) := by
  induction faces generalizing acc with
  | nil => simp
  | cons f fs ih =>
      simp only [List.foldl_cons, List.countP_cons, ih, analyzeFaceStep_nurbs,
        decide_eq_true_eq]
      by_cases hc : faceTag f = Tag.nurbs <;> simp [hc] <;> omega

lemma foldl_analyze_others (thr : ℚ) (faces : List Face) (acc : Stats) :
    (List.foldl (analyzeFaceStep thr) acc faces).others
      = acc.others + faces.countP (fun f => decide (faceTag f = Tag.other)) := by
  induction faces generalizing acc with
  | nil => simp
  | cons f fs ih =>
      simp only [List.foldl_cons, List.countP_cons, ih, analyzeFaceStep_others,
        decide_eq_true_eq]
      by_cases hc : faceTag f = Tag.other <;> simp [hc] <;> omega

lemma foldl_analyze_above (thr : ℚ) (faces : List Face) (acc : Stats) :
    (List.foldl (analyzeFaceStep thr) acc faces).cylinders_above_threshold
      = acc.cylinders_above_threshold + faces.countP (cylAboveThreshold thr) := by
  induction faces generalizing acc with
  | nil => simp
  | cons f fs ih =>
      simp only [List.foldl_cons, List.countP_cons, ih, analyzeFaceStep_above]
      by_cases hc : cylAboveThreshold thr f <;> simp [hc] <;> omega

lemma countP_tag_partition (faces : List Face) :
    faces.countP (fun f => decide (faceTag f = Tag.cylinder))
      + faces.countP (fun f => decide (faceTag f = Tag.cone))
      + faces.countP (fun f => decide (faceTag f = Tag.plane))
      + faces.countP (fun f => decide (faceTag f = Tag.nurbs))
      + faces.countP (fun f => decide (faceTag f = Tag.other))
      = faces.length := by
  induction faces with
  | nil => simp
  | cons f fs ih =>
      simp only [List.countP_cons, List.length_cons, decide_eq_true_eq]
      cases h : faceTag f <;> simp [h] <;> omega

/-! ## Helper lemmas: the batch fold -/

lemma batch_foldl (sink : Segment → Bool) (items : List Geo)
    (acc : List AnnotationRequest × Nat) :
    List.foldl (batchStep sink) acc items
      = (acc.1 ++ items.filterMap emitOf,
         acc.2 + ((items.filterMap emitOf).filter (fun r => sink r.seg)).length) := by
  induction items generalizing acc with
  | nil => simp
  | cons g gs ih =>
      simp only [List.foldl_cons, List.filterMap_cons, batchStep]
      cases h : emitOf g with
      | none => simp [h, ih]
      | some r =>
          simp only [h, ih, List.filter_cons]
          by_cases hs : sink r.seg <;>
            simp [hs, List.append_assoc] <;> omega

lemma batch_process_spec (sink : Segment → Bool) (items : List Geo) :
    batch_process sink items
      = (items.filterMap emitOf,
         ((items.filterMap emitOf).filter (fun r => sink r.seg)).length) := by
  simp [batch_process, batch_foldl]

/-! ## Claim theorems -/

/-- Claim C1, counterexample: a surface passing both the cylinder and the
cone fit is tagged Cylinder by the statistics ladder of 01_analyze_brep.py
but CONE — not CYLINDER — by the inspection SUMMARY of 02_check_surface.py,
and the batch planner of 04_batch_process_surfaces.py emits a red (cone)
request for it: the claimed cylinder-first precedence fails in the
inspection and batch workflows. -/
theorem C1_counterexample :
    faceTag bothFace = Tag.cylinder
    ∧ (check_surface (Geo.brep bothFace [])).summary = Summary.CONE
    ∧ ¬ (check_surface (Geo.brep bothFace [])).summary = Summary.CYLINDER
    ∧ (emitOf (Geo.brep bothFace [])).map AnnotationRequest.color
        = some LineColor.red := by
  have hs : (check_surface (Geo.brep bothFace [])).summary = Summary.CONE := by
    norm_num [check_surface, Geo.resolve, bothFace, bothSurf]
  refine ⟨by norm_num [faceTag, bothFace, bothSurf], hs, by rw [hs]; simp, ?_⟩
  norm_num [emitOf, processItem, Geo.resolve, bothFace, bothSurf, coneParams,
    coneAxisLine]

/-- Claim C1 (amended): in the statistics workflow the cylinder fit is
attempted first, so any face passing it is tagged Cylinder there; in the
inspection-summary and batch workflows the cone fit is tested first, so a
face passing both fits is tagged Cone there; when the cone fit fails, a
face passing the cylinder fit is tagged Cylinder in every workflow,
regardless of the planarity predicate. -/
theorem C1_precedence (f : Face) (rest : List Face)
    (h : f.underlyingSurface.tryGetCylinder.isSome) :
    faceTag f = Tag.cylinder
    ∧ (f.underlyingSurface.tryGetCone.isSome →
        (check_surface (Geo.brep f rest)).summary = Summary.CONE
        ∧ (emitOf (Geo.brep f rest)).map AnnotationRequest.color
            = some LineColor.red)
    ∧ (f.underlyingSurface.tryGetCone = none →
        (check_surface (Geo.brep f rest)).summary = Summary.CYLINDER
        ∧ (emitOf (Geo.brep f rest)).map AnnotationRequest.color
            = some LineColor.green) := by
  refine ⟨by simp [faceTag, h], fun hc => ⟨?_, ?_⟩, fun hc => ⟨?_, ?_⟩⟩
  · simp [check_surface, Geo.resolve, hc]
  · rcases ho : f.underlyingSurface.tryGetCone with _ | k
    · rw [ho] at hc; simp at hc
    · simp [emitOf, processItem, Geo.resolve, ho]
  · simp [check_surface, Geo.resolve, hc, h]
  · rcases hcyl : f.underlyingSurface.tryGetCylinder with _ | c
    · rw [hcyl] at h; simp at h
    · simp [emitOf, processItem, Geo.resolve, hc, hcyl]

/-- Witness for C1_precedence at the both-fits fixture. -/
theorem C1_precedence_witness :
    faceTag bothFace = Tag.cylinder
    ∧ (check_surface (Geo.brep bothFace [])).summary = Summary.CONE := by
  have h := C1_precedence bothFace [] rfl
  exact ⟨h.1, (h.2.1 rfl).1⟩

/-- Claim C2 (confirmed): for a face whose surface fits a cylinder, the
line of 03_create_line_cylinder.py is exactly the spec formula: P1, P2 are
the face evaluated at the U-midpoint and V-min / V-max, ti is
dot(Pi - center, axisDirection), and the segment runs from
center + axisDirection * t1 (V-min side) to center + axisDirection * t2
(V-max side); the batch cylinder branch emits the same segment. -/
theorem C2_cylinder_segment (f : Face) (rest : List Face) (c : Cylinder)
    (h : f.underlyingSurface.tryGetCylinder = some c) :
    create_line_cylinder (Geo.brep f rest) = some (specCylinderAxisSegment c f)
    ∧ (f.underlyingSurface.tryGetCone = none →
        emitOf (Geo.brep f rest)
          = some ⟨specCylinderAxisSegment c f, LineColor.green⟩) := by
  have key : cylinderAxisLine c f = specCylinderAxisSegment c f := rfl
  constructor
  · simp [create_line_cylinder, Geo.resolve, h, key]
  · intro hc
    simp [emitOf, processItem, Geo.resolve, h, hc, key]

/-- Witness for C2_cylinder_segment at a concrete cylinder face. -/
theorem C2_cylinder_segment_witness :
    create_line_cylinder (Geo.brep (cylFace 1) [])
      = some (specCylinderAxisSegment (cylParams 1) (cylFace 1)) :=
  (C2_cylinder_segment (cylFace 1) [] (cylParams 1) rfl).1

/-- Claim C3 (confirmed): the statistics fold visits each face once in
face-index order and increments exactly one main counter per face (the
five main counters sum to the face count and each equals the count of its
tag); the above-threshold sub-counter counts exactly the faces whose
cylinder fit succeeded with diameter strictly above the threshold; the
empty solid yields all-zero counts; and the 6-face example (cylinders of
diameters 2, 4, 6, one cone, two planes, threshold 3.2) yields
cylinders=3, above=2, cones=1, planes=2, nurbs=0, others=0. -/
theorem C3_statistics (thr : ℚ) (faces : List Face) :
    (analyzeBrep thr faces).cylinders + (analyzeBrep thr faces).cones
        + (analyzeBrep thr faces).planes + (analyzeBrep thr faces).nurbs
        + (analyzeBrep thr faces).others = faces.length
    ∧ (analyzeBrep thr faces).cylinders
        = faces.countP (fun f => decide (faceTag f = Tag.cylinder))
    ∧ (analyzeBrep thr faces).cones
        = faces.countP (fun f => decide (faceTag f = Tag.cone))
    ∧ (analyzeBrep thr faces).planes
        = faces.countP (fun f => decide (faceTag f = Tag.plane))
    ∧ (analyzeBrep thr faces).nurbs
        = faces.countP (fun f => decide (faceTag f = Tag.nurbs))
    ∧ (analyzeBrep thr faces).others
        = faces.countP (fun f => decide (faceTag f = Tag.other))
    ∧ (analyzeBrep thr faces).cylinders_above_threshold
        = faces.countP (cylAboveThreshold thr)
    ∧ analyzeBrep thr ([] : List Face) = Stats.zero
    ∧ analyzeBrep DIAMETER_THRESHOLD faces6 = ⟨3, 1, 2, 0, 0, 2⟩ := by
  have hcy : (analyzeBrep thr faces).cylinders
      = faces.countP (fun f => decide (faceTag f = Tag.cylinder)) := by
    simp [analyzeBrep, foldl_analyze_cylinders, Stats.zero]
  have hco : (analyzeBrep thr faces).cones
      = faces.countP (fun f => decide (faceTag f = Tag.cone)) := by
    simp [analyzeBrep, foldl_analyze_cones, Stats.zero]
  have hpl : (analyzeBrep thr faces).planes
      = faces.countP (fun f => decide (faceTag f = Tag.plane)) := by
    simp [analyzeBrep, foldl_analyze_planes, Stats.zero]
  have hnu : (analyzeBrep thr faces).nurbs
      = faces.countP (fun f => decide (faceTag f = Tag.nurbs)) := by
    simp [analyzeBrep, foldl_analyze_nurbs, Stats.zero]
  have hot : (analyzeBrep thr faces).others
      = faces.countP (fun f => decide (faceTag f = Tag.other)) := by
    simp [analyzeBrep, foldl_analyze_others, Stats.zero]
  have hab : (analyzeBrep thr faces).cylinders_above_threshold
      = faces.countP (cylAboveThreshold thr) := by
    simp [analyzeBrep, foldl_analyze_above, Stats.zero]
  refine ⟨?_, hcy, hco, hpl, hnu, hot, hab, rfl, ?_⟩
  · rw [hcy, hco, hpl, hnu, hot, countP_tag_partition]
  · norm_num [analyzeBrep, analyzeFaceStep, faces6, cylFace, coneFace,
      planeFace, cylSurf, coneSurf, planeSurf, cylParams, coneParams,
      Stats.zero, DIAMETER_THRESHOLD, nurbs_type_names]

/-- Claim C4 (confirmed): the batch loop emits, in input order, exactly
one red request per cone-fit item, one green request per cylinder-fit item
with an available face, and nothing otherwise; the emitted list is the
order-preserving filterMap of the per-item emission, the count equals its
length when every request materializes, and the concrete batch
[cylinder, plane, cone, freeform] yields ([green, red], 2). -/
theorem C4_batch_planning (sink : Segment → Bool) (items : List Geo) :
    (batch_process sink items).1 = items.filterMap emitOf
    ∧ (batch_process (fun _ => true) items).2 = (items.filterMap emitOf).length
    ∧ (∀ (s : Surface) (fo : Option Face) (k : Cone), s.tryGetCone = some k →
        processItem s fo = some ⟨coneAxisLine k fo, LineColor.red⟩)
    ∧ (∀ (s : Surface) (f : Face) (c : Cylinder), s.tryGetCone = none →
        s.tryGetCylinder = some c →
        processItem s (some f) = some ⟨cylinderAxisLine c f, LineColor.green⟩)
    ∧ (∀ (s : Surface) (fo : Option Face), s.tryGetCone = none →
        s.tryGetCylinder = none → processItem s fo = none)
    ∧ batch_process (fun _ => true) items4
        = ([⟨cylSegExpected, LineColor.green⟩,
            ⟨coneSegExpected, LineColor.red⟩], 2) := by
  refine ⟨?_, ?_, ?_, ?_, ?_, ?_⟩
  · simp [batch_process_spec]
  · simp [batch_process_spec, List.filter_true]
  · intro s fo k hk
    simp [processItem, hk]
  · intro s f c hk hc
    simp [processItem, hk, hc]
  · intro s fo hk hc
    simp [processItem, hk, hc]
  · norm_num [batch_process, batchStep, emitOf, processItem, items4,
      Geo.resolve, cylFace, coneFace, planeFace, nurbsFace, cylSurf, coneSurf,
      planeSurf, nurbsSurf, cylParams, coneParams, cylinderAxisLine,
      coneAxisLine, cylSegExpected, coneSegExpected, Point3.vsub, Point3.vadd,
      Point3.vsubv, Vector3.smul, zAxis]

/-- Witness for C4_batch_planning at the four-item batch. -/
theorem C4_batch_planning_witness :
    batch_process (fun _ => true) items4
      = ([⟨cylSegExpected, LineColor.green⟩, ⟨coneSegExpected, LineColor.red⟩], 2)
    ∧ processItem coneSurf (some coneFace)
      = some ⟨coneAxisLine coneParams (some coneFace), LineColor.red⟩ := by
  have h := C4_batch_planning (fun _ => true) items4
  exact ⟨h.2.2.2.2.2, h.2.2.1 coneSurf (some coneFace) coneParams rfl⟩

/-- Claim C5 (confirmed): the cone branch of the batch planner emits the
spec segment: reference point is the face evaluated at the midpoint of the
(U, V) domain, falling back to the cone apex when no face is available,
and the segment runs from reference - axis*2.5 to reference + axis*2.5;
its extent (end minus start) is axis * 5 for every face, independent of
the V-domain. -/
theorem C5_cone_segment (s : Surface) (fo : Option Face) (k : Cone)
    (h : s.tryGetCone = some k) :
    processItem s fo = some ⟨specConeAxisSegment k fo, LineColor.red⟩
    ∧ coneAxisLine k fo = specConeAxisSegment k fo
    ∧ ((coneAxisLine k fo).endp).vsub ((coneAxisLine k fo).start)
        = k.axis.smul 5 := by
  have key : coneAxisLine k fo = specConeAxisSegment k fo := rfl
  refine ⟨by simp [processItem, h, key], key, ?_⟩
  simp only [coneAxisLine, Point3.vsub, Point3.vadd, Point3.vsubv,
    Vector3.smul, Vector3.mk.injEq]
  refine ⟨by ring, by ring, by ring⟩

/-- Witness for C5_cone_segment at a concrete cone face. -/
theorem C5_cone_segment_witness :
    processItem coneSurf (some coneFace)
      = some ⟨specConeAxisSegment coneParams (some coneFace), LineColor.red⟩ :=
  (C5_cone_segment coneSurf (some coneFace) coneParams rfl).1

/-- Claim C6, counterexample: a single cone item whose request the sink
fails to materialize shows lines_created is NOT sink-independent: one
request is emitted in both runs, yet the count is 0 with a failing sink
and 1 with a succeeding one. -/
theorem C6_counterexample :
    (batch_process (fun _ => false) [coneGeo]).1.length = 1
    ∧ (batch_process (fun _ => false) [coneGeo]).2 = 0
    ∧ (batch_process (fun _ => true) [coneGeo]).2 = 1
    ∧ ¬ ((batch_process (fun _ => false) [coneGeo]).2
          = (batch_process (fun _ => true) [coneGeo]).2) := by
  refine ⟨?_, ?_, ?_, ?_⟩ <;>
    norm_num [batch_process, batchStep, emitOf, processItem, coneGeo,
      Geo.resolve, coneFace, coneSurf, coneParams, coneAxisLine]

/-- Claim C6 (amended): lines_created equals the number of emitted
requests that the sink successfully materialized; when every request
materializes it equals the number of emitted requests — which, on the
four-item batch, is 2, not the item count 4. -/
theorem C6_created_count (sink : Segment → Bool) (items : List Geo) :
    (batch_process sink items).2
        = ((batch_process sink items).1.filter (fun r => sink r.seg)).length
    ∧ (batch_process (fun _ => true) items).2
        = (batch_process (fun _ => true) items).1.length
    ∧ (batch_process (fun _ => true) items4).2 = 2
    ∧ items4.length = 4 := by
  refine ⟨?_, ?_, ?_, rfl⟩
  · simp [batch_process_spec]
  · simp [batch_process_spec, List.filter_true]
  · norm_num [batch_process, batchStep, emitOf, processItem, items4,
      Geo.resolve, cylFace, coneFace, planeFace, nurbsFace, cylSurf, coneSurf,
      planeSurf, nurbsSurf, cylParams, coneParams, cylinderAxisLine,
      coneAxisLine, Point3.vsub, Point3.vadd, Point3.vsubv, Vector3.smul, zAxis]

/-- Claim C7 (confirmed): for a cylinder face whose V-domain is degenerate
(min = max), the axis-line extraction is total (it returns a segment, no
error path exists) and the segment is zero-length: both endpoints
coincide. -/
theorem C7_degenerate (f : Face) (rest : List Face) (c : Cylinder)
    (h : f.underlyingSurface.tryGetCylinder = some c)
    (hdeg : f.domainV.min = f.domainV.max) :
    create_line_cylinder (Geo.brep f rest) = some (cylinderAxisLine c f)
    ∧ (cylinderAxisLine c f).start = (cylinderAxisLine c f).endp := by
  constructor
  · simp [create_line_cylinder, Geo.resolve, h]
  · simp only [cylinderAxisLine]
    rw [hdeg]

/-- Witness for C7_degenerate at a cylinder face with V-domain [1, 1]. -/
theorem C7_degenerate_witness :
    create_line_cylinder (Geo.brep degenFace [])
      = some (cylinderAxisLine (cylParams 1) degenFace)
    ∧ (cylinderAxisLine (cylParams 1) degenFace).start
      = (cylinderAxisLine (cylParams 1) degenFace).endp :=
  C7_degenerate degenFace [] (cylParams 1) rfl rfl

lemma analyzeFaceStep_withSphere (thr : ℚ) (acc : Stats) (f : Face)
    (o : Option Sphere) :
    analyzeFaceStep thr acc (f.withSphere o) = analyzeFaceStep thr acc f := by
  obtain ⟨⟨cy, co, sp, tn⟩, ip, du, dv, pa⟩ := f
  cases cy <;> cases co <;> rfl

lemma faceTag_withSphere (f : Face) (o : Option Sphere) :
    faceTag (f.withSphere o) = faceTag f := by
  obtain ⟨⟨cy, co, sp, tn⟩, ip, du, dv, pa⟩ := f
  rfl

/-- Claim C8 (confirmed): substituting any sphere-fit outcome into a
handle leaves the inspection SUMMARY unchanged while the sphere outcome
itself is faithfully reported as a diagnostic; the statistics step, the
statistics tag, the batch emission and the cylinder-line script are all
sphere-independent as well. -/
theorem C8_sphere_noninterference (g : Geo) (o : Option Sphere) :
    (check_surface (g.withSphere o)).summary = (check_surface g).summary
    ∧ (check_surface (g.withSphere o)).is_sphere = o.isSome
    ∧ (check_surface (g.withSphere o)).sphere = o
    ∧ (∀ (thr : ℚ) (acc : Stats) (f : Face),
        analyzeFaceStep thr acc (f.withSphere o) = analyzeFaceStep thr acc f)
    ∧ (∀ f : Face, faceTag (f.withSphere o) = faceTag f)
    ∧ emitOf (g.withSphere o) = emitOf g
    ∧ create_line_cylinder (g.withSphere o) = create_line_cylinder g := by
  refine ⟨?_, ?_, ?_, fun thr acc f => analyzeFaceStep_withSphere thr acc f o,
    fun f => faceTag_withSphere f o, ?_, ?_⟩ <;>
    (cases g with
     | brep f r =>
         obtain ⟨⟨cy, co, sp, tn⟩, ip, du, dv, pa⟩ := f
         cases co <;> cases cy <;> rfl
     | srf s fo =>
         obtain ⟨cy, co, sp, tn⟩ := s
         rcases fo with _ | f
         · cases co <;> cases cy <;> rfl
         · obtain ⟨⟨fcy, fco, fsp, ftn⟩, ip, du, dv, pa⟩ := f
           cases co <;> cases cy <;> rfl)

/-- Claim C9 (confirmed): the inspection, cylinder-line, and batch
workflows on a Brep handle depend only on the face at index 0: every other
face can be replaced arbitrarily without changing the report, the emitted
segment, or the batch output; the Brep run coincides with the bare-surface
run on face 0. -/
theorem C9_face0 (f : Face) (rest rest2 : List Face) (sink : Segment → Bool) :
    check_surface (Geo.brep f rest) = check_surface (Geo.brep f rest2)
    ∧ check_surface (Geo.brep f rest)
        = check_surface (Geo.srf f.underlyingSurface (some f))
    ∧ create_line_cylinder (Geo.brep f rest)
        = create_line_cylinder (Geo.brep f rest2)
    ∧ emitOf (Geo.brep f rest) = emitOf (Geo.brep f rest2)
    ∧ batch_process sink [Geo.brep f rest]
        = batch_process sink [Geo.brep f rest2] :=
  ⟨rfl, rfl, rfl, rfl, rfl⟩

/-- Claim C10 (confirmed): in the batch planner, a bare-surface item with
no face view that fits a cylinder emits no request and adds nothing to the
count, while a bare-surface item with no face view that fits a cone still
emits a red request centered on the cone apex — the face guard is
asymmetric between the two branches. -/
theorem C10_bare_surface_asymmetry (s1 s2 : Surface) (c : Cylinder) (k : Cone)
    (sink : Segment → Bool)
    (h1 : s1.tryGetCone = none) (h2 : s1.tryGetCylinder = some c)
    (h3 : s2.tryGetCone = some k) :
    emitOf (Geo.srf s1 none) = none
    ∧ batch_process sink [Geo.srf s1 none] = ([], 0)
    ∧ emitOf (Geo.srf s2 none)
        = some ⟨⟨k.apexPoint.vsubv (k.axis.smul (5 / 2)),
                 k.apexPoint.vadd (k.axis.smul (5 / 2))⟩, LineColor.red⟩
    ∧ (batch_process sink [Geo.srf s2 none]).1
        = [⟨⟨k.apexPoint.vsubv (k.axis.smul (5 / 2)),
             k.apexPoint.vadd (k.axis.smul (5 / 2))⟩, LineColor.red⟩] := by
  have e1 : emitOf (Geo.srf s1 none) = none := by
    simp [emitOf, processItem, Geo.resolve, h1, h2]
  have e2 : emitOf (Geo.srf s2 none)
      = some ⟨⟨k.apexPoint.vsubv (k.axis.smul (5 / 2)),
               k.apexPoint.vadd (k.axis.smul (5 / 2))⟩, LineColor.red⟩ := by
    simp [emitOf, processItem, Geo.resolve, h3, coneAxisLine]
  refine ⟨e1, ?_, e2, ?_⟩
  · simp [batch_process, batchStep, e1]
  · simp [batch_process, batchStep, e2]

/-- Witness for C10_bare_surface_asymmetry: a bare cylinder surface emits
nothing while a bare cone surface emits an apex-centered red request. -/
theorem C10_bare_surface_asymmetry_witness :
    emitOf (Geo.srf (cylSurf 1) none) = none
    ∧ emitOf (Geo.srf coneSurf none)
      = some ⟨⟨coneParams.apexPoint.vsubv (coneParams.axis.smul (5 / 2)),
               coneParams.apexPoint.vadd (coneParams.axis.smul (5 / 2))⟩,
              LineColor.red⟩ := by
  have h := C10_bare_surface_asymmetry (cylSurf 1) coneSurf (cylParams 1)
    coneParams (fun _ => true) rfl rfl rfl
  exact ⟨h.1, h.2.2.1⟩

end RhinoBrep
